import Mathlib

/-!
Verification development for the mkxp Bitmap component (src/src/bitmap.cpp).

The C++ class Bitmap is embedded shallowly: the GPU framebuffer is a pixel
grid (a function from integer coordinates to colors), the deferred point
batch is an explicit list, exceptions become an Except error monad, and the
external collaborators that the spec scopes out (shader programs, the
scratch-texture provider, the font rasterizer) are bundled as black-box
function parameters in a GpuExt structure.  Machine floats of the source
are modelled as rationals.
-/

/-- Color as in the source Vec4 (4-component float vector); components are
modelled as rationals. -/
@[ext]
structure Vec4 where
  r : ℚ
  g : ℚ
  b : ℚ
  a : ℚ
deriving DecidableEq

/-- Vec4() default constructor from the source: transparent black (0,0,0,0). -/
def Vec4.transparent : Vec4 := ⟨0, 0, 0, 0⟩

/-- IntRect as in the source: x, y, w, h, all C ints. -/
@[ext]
structure IntRect where
  x : Int
  y : Int
  w : Int
  h : Int
deriving DecidableEq

/-- Pixel contents of a texture or framebuffer: a color at every integer
coordinate (only coordinates inside the texture bounds are meaningful). -/
abbrev Grid := Int → Int → Vec4

/-- Error taxonomy of the component, naming the Exception tags thrown in
bitmap.cpp by the names the specification uses: GUARD_DISPOSED throws
DisposedError, GUARD_MEGA (Exception::MKXPError, line 43) is
UnsupportedOperation, the blank-constructor guard (Exception::RGSSError,
line 196) is InvalidArgument, texture-pool exhaustion is ResourceError, and
a failed image decode (Exception::SDLError, line 158) is LoadError carrying
the decoder error text. -/
inductive BError where
  | DisposedError
  | UnsupportedOperation
  | InvalidArgument
  | ResourceError
  | LoadError (msg : String)
deriving DecidableEq

/-- Modelled from the spec: clamp comes from util.h, which is not under
src/; the spec says opacity is clamped to the closed range. -/
def clamp (v lo hi : Int) : Int :=
  if v < lo then lo else if v > hi then hi else v

/-- Modelled from the spec: wrapRange comes from util.h, which is not under
src/; the spec says hueChange normalizes degrees into [0,359], which for
lo = 0, hi = 359 is the Euclidean remainder modulo 360. -/
def wrapRange (v lo hi : Int) : Int :=
  lo + (v - lo) % (hi - lo + 1)

/-- TEXFBO: a GPU texture plus framebuffer pair from the texture pool,
identified by id, together with its pixel contents. -/
@[ext]
structure TEXFBO where
  id : Nat
  width : Int
  height : Int
  pixels : Grid

/-- Default-constructed TEXFBO held by a fresh BitmapPrivate (the mega
path never allocates a real texture, lines 164-166). -/
def TEXFBO.empty : TEXFBO := ⟨0, 0, 0, fun _ _ => Vec4.transparent⟩

/-- SDL_Surface: a CPU-resident raw pixel buffer with its dimensions. -/
@[ext]
structure SDLSurface where
  w : Int
  h : Int
  pixels : Grid

/-- BitmapPrivate (lines 50-149): the texture, the cached point batch for
setPixel, and the mega-surface pointer (none for regular GPU surfaces).
The modifiedCount field counts emissions of the modified() signal.  The
font pointer is an external collaborator and is folded into GpuExt. -/
@[ext]
structure BitmapPrivate where
  tex : TEXFBO
  pointArray : List (Int × Int × Vec4)
  megaSurface : Option SDLSurface
  modifiedCount : Nat

/-- A Bitmap: the disposable wrapper around BitmapPrivate. -/
@[ext]
structure Bitmap where
  disposed : Bool
  p : BitmapPrivate

/-- Texture pool (external collaborator, interface per the spec): request
hands out a fresh texture of exactly the requested size or fails with
ResourceError; release returns a texture id to the pool.  canAlloc is the
environment choice of which allocations succeed.  Contents of a freshly
requested texture are unspecified in the source; they are modelled as
transparent black, and every claim-relevant caller overwrites them fully
before they are observed. -/
structure TexPool where
  nextId : Nat
  released : List Nat
  canAlloc : Int → Int → Bool

def TexPool.request (pool : TexPool) (w h : Int) : Except BError (TEXFBO × TexPool) :=
  if pool.canAlloc w h then
    .ok (⟨pool.nextId, w, h, fun _ _ => Vec4.transparent⟩,
         { pool with nextId := pool.nextId + 1 })
  else .error .ResourceError

def TexPool.release (pool : TexPool) (tex : TEXFBO) : TexPool :=
  { pool with released := tex.id :: pool.released }

/-- Placement data computed by drawText (lines 530-557): the aligned and
clamped x, the vertically centered y, the horizontal squeeze factor, the
drawn width txtW * squeeze, and the drawn height txtH. -/
@[ext]
structure TextPlacement where
  alignX : Int
  alignY : Int
  squeeze : ℚ
  posW : ℚ
  posH : Int
deriving DecidableEq

/-- External GPU and font collaborators, black boxes per the spec: the
blt-shader compositing pass (destRect, sourceRect, normalized opacity,
source pixels, destination pixels), the gradient quad pass, the
hue-rotation shader pass (parameter given as the coefficient of pi in the
radian hue adjustment), the staged text compositing pass, and the font
rasterizer returning the rendered text surface dimensions. -/
structure GpuExt where
  bltPass : IntRect → IntRect → ℚ → Grid → Grid → Grid
  gradPass : IntRect → Vec4 → Vec4 → Bool → Grid → Grid
  huePass : ℚ → Grid → Grid
  textPass : TextPlacement → String → Grid → Grid
  measure : String → Int × Int

/-- Drawing one buffered point (x+.5, y+.5 in the source centers the point
on pixel (x,y)): a direct overwrite (BlendNone) of that pixel, clipped to
the framebuffer bounds. -/
def applyPoint (w h : Int) (g : Grid) (pt : Int × Int × Vec4) : Grid :=
  fun x y =>
    if x = pt.1 ∧ y = pt.2.1 ∧ 0 ≤ x ∧ x < w ∧ 0 ≤ y ∧ y < h then pt.2.2
    else g x y

/-- BitmapPrivate::flushPoints (lines 101-120): no-op when the batch is
empty; otherwise draw every buffered point in order with blending disabled
and reset the batch. -/
def BitmapPrivate.flushPoints (p : BitmapPrivate) : BitmapPrivate :=
  if p.pointArray = [] then p
  else
    { p with
      tex := { p.tex with
        pixels := p.pointArray.foldl (applyPoint p.tex.width p.tex.height) p.tex.pixels },
      pointArray := [] }

/-- BitmapPrivate::fillRect (lines 122-138): flush points, then clear the
scissored region (intersected with the framebuffer) to the given color. -/
def BitmapPrivate.fillRect (p : BitmapPrivate) (rect : IntRect) (color : Vec4) : BitmapPrivate :=
  let q := p.flushPoints
  { q with
    tex := { q.tex with
      pixels := fun x y =>
        if rect.x ≤ x ∧ x < rect.x + rect.w ∧ rect.y ≤ y ∧ y < rect.y + rect.h ∧
           0 ≤ x ∧ x < q.tex.width ∧ 0 ≤ y ∧ y < q.tex.height
        then color else q.tex.pixels x y } }

/-- Bitmap::flush (lines 625-634): silently returns on a disposed or mega
surface, otherwise commits the point batch. -/
def Bitmap.flush (b : Bitmap) : Bitmap :=
  if b.disposed then b
  else if b.p.megaSurface.isSome then b
  else { b with p := b.p.flushPoints }

/-- Bitmap::width (lines 221-229): disposed guard, then the mega surface
width when in mega mode, else the texture width. -/
def Bitmap.width (b : Bitmap) : Except BError Int :=
  if b.disposed then .error .DisposedError
  else
    match b.p.megaSurface with
    | some s => .ok s.w
    | none => .ok b.p.tex.width

/-- Bitmap::height (lines 231-239). -/
def Bitmap.height (b : Bitmap) : Except BError Int :=
  if b.disposed then .error .DisposedError
  else
    match b.p.megaSurface with
    | some s => .ok s.h
    | none => .ok b.p.tex.height

/-- Bitmap::stretchBlt (lines 254-315): disposed and mega guards, clamp
opacity to [0,255], early return when the clamped opacity is 0, otherwise
flush the point batch and run the staged blt-shader pass (which reads the
source dimensions, propagating a DisposedError from a disposed source),
then signal modified.  The normalized opacity passed to the shader is
clamped opacity / 255 (line 282). -/
def Bitmap.stretchBlt (E : GpuExt) (b : Bitmap) (destRect : IntRect) (source : Bitmap)
    (sourceRect : IntRect) (opacity : Int) : Except BError Bitmap :=
  if b.disposed then .error .DisposedError
  else if b.p.megaSurface.isSome then .error .UnsupportedOperation
  else if clamp opacity 0 255 = 0 then .ok b
  else
    match source.width, source.height with
    | .ok _, .ok _ =>
      let f := b.flush
      .ok { f with p := { f.p with
        tex := { f.p.tex with
          pixels := E.bltPass destRect sourceRect (((clamp opacity 0 255 : Int) : ℚ) / 255)
            source.p.tex.pixels f.p.tex.pixels },
        modifiedCount := f.p.modifiedCount + 1 } }
    | .error e, _ => .error e
    | _, .error e => .error e

/-- Bitmap::fillRect (lines 324-333). -/
def Bitmap.fillRect (b : Bitmap) (rect : IntRect) (color : Vec4) : Except BError Bitmap :=
  if b.disposed then .error .DisposedError
  else if b.p.megaSurface.isSome then .error .UnsupportedOperation
  else
    let q := b.p.fillRect rect color
    .ok { b with p := { q with modifiedCount := q.modifiedCount + 1 } }

/-- Bitmap::gradientFillRect (lines 343-384): guards, flush, then the quad
with per-vertex colors (the vertex color assignment encodes the vertical
flag), then modified. -/
def Bitmap.gradientFillRect (E : GpuExt) (b : Bitmap) (rect : IntRect)
    (color1 color2 : Vec4) (vertical : Bool) : Except BError Bitmap :=
  if b.disposed then .error .DisposedError
  else if b.p.megaSurface.isSome then .error .UnsupportedOperation
  else
    let f := b.flush
    .ok { f with p := { f.p with
      tex := { f.p.tex with
        pixels := E.gradPass rect color1 color2 vertical f.p.tex.pixels },
      modifiedCount := f.p.modifiedCount + 1 } }

/-- Bitmap::clearRect (lines 391-400): fillRect with transparent black. -/
def Bitmap.clearRect (b : Bitmap) (rect : IntRect) : Except BError Bitmap :=
  if b.disposed then .error .DisposedError
  else if b.p.megaSurface.isSome then .error .UnsupportedOperation
  else
    let q := b.p.fillRect rect Vec4.transparent
    .ok { b with p := { q with modifiedCount := q.modifiedCount + 1 } }

/-- Bitmap::clear (lines 402-420): guards, discard the queued points
outright (pointArray.reset, line 409, since they would be invisible after
the clear), clear the whole framebuffer to transparent black, signal
modified. -/
def Bitmap.clear (b : Bitmap) : Except BError Bitmap :=
  if b.disposed then .error .DisposedError
  else if b.p.megaSurface.isSome then .error .UnsupportedOperation
  else
    .ok { b with p := { b.p with
      pointArray := [],
      tex := { b.p.tex with pixels := fun _ _ => Vec4.transparent },
      modifiedCount := b.p.modifiedCount + 1 } }

/-- Bitmap::getPixel (lines 422-440): guards, transparent black for an
out-of-bounds coordinate (before any flush), otherwise flush the point
batch and read the pixel back from the framebuffer. -/
def Bitmap.getPixel (b : Bitmap) (x y : Int) : Except BError (Vec4 × Bitmap) :=
  if b.disposed then .error .DisposedError
  else if b.p.megaSurface.isSome then .error .UnsupportedOperation
  else if x < 0 ∨ y < 0 ∨ x ≥ b.p.tex.width ∨ y ≥ b.p.tex.height then
    .ok (Vec4.transparent, b)
  else
    let f := b.flush
    .ok (f.p.tex.pixels x y, f)

/-- Bitmap::setPixel (lines 442-451): guards, append the point to the
batch (the +0.5 offsets in the source center the GL point on pixel (x,y)),
signal modified; nothing is drawn yet. -/
def Bitmap.setPixel (b : Bitmap) (x y : Int) (color : Vec4) : Except BError Bitmap :=
  if b.disposed then .error .DisposedError
  else if b.p.megaSurface.isSome then .error .UnsupportedOperation
  else
    .ok { b with p := { b.p with
      pointArray := b.p.pointArray ++ [(x, y, color)],
      modifiedCount := b.p.modifiedCount + 1 } }

/-- Hue shader parameter of lines 473-474, hueAdj = -((M_PI * 2) / 360) *
wrapRange(hue, 0, 359), expressed exactly as its coefficient of pi: the
radian parameter handed to the shader is hueAdjCoeff hue * pi. -/
def hueAdjCoeff (hue : Int) : ℚ :=
  -((2 : ℚ) / 360) * ((wrapRange hue 0 359 : Int) : ℚ)

/-- Bitmap::hueChange (lines 453-496): guards, early return when hue is a
multiple of 360 (C truncated remainder, line 459), otherwise flush, request
a fresh same-size texture from the pool, draw the old texture through the
hue shader into the new one, release the old texture back to the pool, and
signal modified. -/
def Bitmap.hueChange (E : GpuExt) (pool : TexPool) (b : Bitmap) (hue : Int) :
    Except BError (TexPool × Bitmap) :=
  if b.disposed then .error .DisposedError
  else if b.p.megaSurface.isSome then .error .UnsupportedOperation
  else if hue.tmod 360 = 0 then .ok (pool, b)
  else
    let f := b.flush
    match pool.request f.p.tex.width f.p.tex.height with
    | .error e => .error e
    | .ok (newTex, pool1) =>
      .ok (pool1.release f.p.tex,
           { f with p := { f.p with
             tex := { newTex with pixels := E.huePass (hueAdjCoeff hue) f.p.tex.pixels },
             modifiedCount := f.p.modifiedCount + 1 } })

/-- Alignment constants of the Bitmap text API (the enum lives in bitmap.h,
not under src/; RGSS order Left = 0, Center = 1, Right = 2, and the switch
at line 532 treats every other value as Left via its default case). -/
def Bitmap.alignLeft : Int := 0

def Bitmap.alignCenter : Int := 1

def Bitmap.alignRight : Int := 2

/-- Text placement arithmetic of Bitmap::drawText lines 530-557: alignX
starts at rect.x, is shifted by the switch on the alignment (C integer
division truncates toward zero), and is clamped to not start left of
rect.x; alignY centers within rect.h; the squeeze factor rect.w / txtW is
capped at 1; the drawn quad is txtW * squeeze wide and txtH high. -/
def drawTextPlacement (rect : IntRect) (align : Int) (txtW txtH : Int) : TextPlacement :=
  let alignX1 : Int :=
    if align = Bitmap.alignCenter then rect.x + (rect.w - txtW).tdiv 2
    else if align = Bitmap.alignRight then rect.x + rect.w - txtW
    else rect.x
  let alignX : Int := if alignX1 < rect.x then rect.x else alignX1
  let alignY : Int := rect.y + (rect.h - txtH).tdiv 2
  let squeeze0 : ℚ := ((rect.w : Int) : ℚ) / ((txtW : Int) : ℚ)
  let squeeze : ℚ := if squeeze0 > 1 then 1 else squeeze0
  ⟨alignX, alignY, squeeze, ((txtW : Int) : ℚ) * squeeze, txtH⟩

/-- Bitmap::drawText (lines 505-604): guards, early return on the empty
string (line 511, before any flush), otherwise flush, rasterize the text
via the font collaborator (its surface dimensions given by measure),
compute the placement, and run the staged text compositing pass, then
signal modified. -/
def Bitmap.drawText (E : GpuExt) (b : Bitmap) (rect : IntRect) (str : String)
    (align : Int) : Except BError Bitmap :=
  if b.disposed then .error .DisposedError
  else if b.p.megaSurface.isSome then .error .UnsupportedOperation
  else if str = "" then .ok b
  else
    let f := b.flush
    let d := E.measure str
    .ok { f with p := { f.p with
      tex := { f.p.tex with
        pixels := E.textPass (drawTextPlacement rect align d.1 d.2) str f.p.tex.pixels },
      modifiedCount := f.p.modifiedCount + 1 } }

/-- Bitmap::textSize (lines 606-621): guards, then a pure query of the
font collaborator; no flush, no state change. -/
def Bitmap.textSize (E : GpuExt) (b : Bitmap) (str : String) : Except BError IntRect :=
  if b.disposed then .error .DisposedError
  else if b.p.megaSurface.isSome then .error .UnsupportedOperation
  else .ok ⟨0, 0, (E.measure str).1, (E.measure str).2⟩

/-- Bitmap::Bitmap(int, int), the blank constructor (lines 193-204):
InvalidArgument on a non-positive dimension, then a pool request of exactly
the requested size, then clear(). -/
def bitmapBlank (pool : TexPool) (width height : Int) : Except BError (TexPool × Bitmap) :=
  if width ≤ 0 ∨ height ≤ 0 then .error .InvalidArgument
  else
    match pool.request width height with
    | .error e => .error e
    | .ok (tex, pool1) =>
      match Bitmap.clear ⟨false, ⟨tex, [], none, 0⟩⟩ with
      | .error e => .error e
      | .ok b => .ok (pool1, b)

/-- Outcome of the file constructor, together with the accounting of the
decoded CPU pixel buffer needed by the resource-cleanup claim. -/
structure FromFileResult where
  result : Except BError (TexPool × Bitmap)
  bufferAllocated : Bool
  bufferFreed : Bool

/-- Bitmap::Bitmap(const char*), the file constructor (lines 151-191):
LoadError carrying the decoder text when decoding fails; a mega surface
keeping the CPU buffer when a dimension exceeds the maximum texture size;
otherwise a pool request (on whose failure the CPU buffer is freed before
the ResourceError propagates, lines 177-181), an upload of the decoded
pixels, and a free of the CPU buffer. -/
def bitmapFromFile (decoded : Except String SDLSurface) (maxTexSize : Int)
    (pool : TexPool) : FromFileResult :=
  match decoded with
  | .error msg => ⟨.error (.LoadError msg), false, false⟩
  | .ok img =>
    if img.w > maxTexSize ∨ img.h > maxTexSize then
      ⟨.ok (pool, ⟨false, ⟨TEXFBO.empty, [], some img, 0⟩⟩), true, false⟩
    else
      match pool.request img.w img.h with
      | .error _ => ⟨.error .ResourceError, true, true⟩
      | .ok (tex, pool1) =>
        ⟨.ok (pool1, ⟨false, ⟨{ tex with pixels := img.pixels }, [], none, 0⟩⟩), true, true⟩

/-- The public operations of bitmap.cpp, for claims quantifying over the
whole interface. -/
inductive BOp where
  | widthOp
  | heightOp
  | stretchBltOp (destRect : IntRect) (source : Bitmap) (sourceRect : IntRect) (opacity : Int)
  | fillRectOp (rect : IntRect) (color : Vec4)
  | gradientFillRectOp (rect : IntRect) (color1 color2 : Vec4) (vertical : Bool)
  | clearRectOp (rect : IntRect)
  | clearOp
  | getPixelOp (x y : Int)
  | setPixelOp (x y : Int) (color : Vec4)
  | hueChangeOp (hue : Int)
  | drawTextOp (rect : IntRect) (str : String) (align : Int)
  | textSizeOp (str : String)
  | flushOp

/-- Run one public operation on a bitmap, dropping query results and pool
output, keeping the bitmap state transition. -/
def runOp (E : GpuExt) (pool : TexPool) (op : BOp) (b : Bitmap) : Except BError Bitmap :=
  match op with
  | .widthOp => b.width.map fun _ => b
  | .heightOp => b.height.map fun _ => b
  | .stretchBltOp destRect src srcRect opacity => b.stretchBlt E destRect src srcRect opacity
  | .fillRectOp rect color => b.fillRect rect color
  | .gradientFillRectOp rect c1 c2 v => b.gradientFillRect E rect c1 c2 v
  | .clearRectOp rect => b.clearRect rect
  | .clearOp => b.clear
  | .getPixelOp x y => (b.getPixel x y).map Prod.snd
  | .setPixelOp x y c => b.setPixel x y c
  | .hueChangeOp hue => (b.hueChange E pool hue).map Prod.snd
  | .drawTextOp rect str align => b.drawText E rect str align
  | .textSizeOp str => (b.textSize E str).map fun _ => b
  | .flushOp => .ok b.flush

/-! Helper lemmas about the point batch and flushing. -/

theorem BitmapPrivate.flushPoints_pointArray (p : BitmapPrivate) :
    p.flushPoints.pointArray = [] := by
  unfold BitmapPrivate.flushPoints
  split
  · assumption
  · rfl

theorem BitmapPrivate.flushPoints_megaSurface (p : BitmapPrivate) :
    p.flushPoints.megaSurface = p.megaSurface := by
  unfold BitmapPrivate.flushPoints
  split <;> rfl

theorem BitmapPrivate.flushPoints_modifiedCount (p : BitmapPrivate) :
    p.flushPoints.modifiedCount = p.modifiedCount := by
  unfold BitmapPrivate.flushPoints
  split <;> rfl

theorem BitmapPrivate.flushPoints_tex_id (p : BitmapPrivate) :
    p.flushPoints.tex.id = p.tex.id := by
  unfold BitmapPrivate.flushPoints
  split <;> rfl

theorem BitmapPrivate.flushPoints_tex_width (p : BitmapPrivate) :
    p.flushPoints.tex.width = p.tex.width := by
  unfold BitmapPrivate.flushPoints
  split <;> rfl

theorem BitmapPrivate.flushPoints_tex_height (p : BitmapPrivate) :
    p.flushPoints.tex.height = p.tex.height := by
  unfold BitmapPrivate.flushPoints
  split <;> rfl

theorem BitmapPrivate.flushPoints_tex_pixels (p : BitmapPrivate) :
    p.flushPoints.tex.pixels
      = p.pointArray.foldl (applyPoint p.tex.width p.tex.height) p.tex.pixels := by
  unfold BitmapPrivate.flushPoints
  split
  · next hnil => rw [hnil]; rfl
  · rfl

theorem Bitmap.flush_eq (b : Bitmap) (hd : b.disposed = false)
    (hm : b.p.megaSurface = none) : b.flush = { b with p := b.p.flushPoints } := by
  unfold Bitmap.flush
  simp [hd, hm]

theorem clamp_idem (v lo hi : Int) (h : lo ≤ hi) :
    clamp (clamp v lo hi) lo hi = clamp v lo hi := by
  unfold clamp
  split_ifs <;> omega

/-! Concrete example states used by the witness and counterexample
theorems below. -/

def gridEx : Grid := fun _ _ => Vec4.transparent

def texEx : TEXFBO := ⟨0, 2, 2, gridEx⟩

def redEx : Vec4 := ⟨1, 0, 0, 1⟩

def bEx : Bitmap := ⟨false, ⟨texEx, [], none, 0⟩⟩

def bPendingEx : Bitmap := ⟨false, ⟨texEx, [(0, 0, redEx)], none, 1⟩⟩

def megaImgEx : SDLSurface := ⟨5, 7, gridEx⟩

def megaEx : Bitmap := ⟨false, ⟨TEXFBO.empty, [], some megaImgEx, 0⟩⟩

def rectEx : IntRect := ⟨0, 0, 2, 2⟩

def Eex : GpuExt :=
  ⟨fun _ _ _ _ g => g, fun _ _ _ _ g => g, fun _ g => g, fun _ _ g => g, fun _ => (1, 1)⟩

def poolEx : TexPool := ⟨1, [], fun _ _ => true⟩

def poolFailEx : TexPool := ⟨1, [], fun _ _ => false⟩

/-- Claim C3: for every bitmap and blit call, stretchBlt clamps the
opacity to [0,255] (the call is invariant under replacing the opacity with
its clamped value), and when the clamped opacity is 0 it returns early
with the destination bitmap returned exactly as it was: pixel contents,
point batch and modified count unchanged, and no modified signal. -/
theorem stretchBlt_clamps_and_zero_opacity_noop (E : GpuExt) (b : Bitmap)
    (destRect : IntRect) (source : Bitmap) (sourceRect : IntRect) (opacity : Int)
    (hd : b.disposed = false) (hm : b.p.megaSurface = none) :
    b.stretchBlt E destRect source sourceRect opacity
      = b.stretchBlt E destRect source sourceRect (clamp opacity 0 255) ∧
    (clamp opacity 0 255 = 0 →
      b.stretchBlt E destRect source sourceRect opacity = .ok b) := by
  constructor
  · unfold Bitmap.stretchBlt
    rw [clamp_idem _ _ _ (by norm_num)]
  · intro h0
    unfold Bitmap.stretchBlt
    simp [hd, hm, h0]

/-- Witness for C3 at a concrete negative opacity. -/
theorem stretchBlt_clamps_witness :
    clamp (-7) 0 255 = 0 ∧ bEx.stretchBlt Eex rectEx bEx rectEx (-7) = .ok bEx :=
  ⟨by decide,
   (stretchBlt_clamps_and_zero_opacity_noop Eex bEx rectEx bEx rectEx (-7) rfl rfl).2
     (by decide)⟩

/-- Claim C2: on a mega (CpuSurface) bitmap, every GPU-compositing
operation — fill, gradient fill, clear, clearRect, pixel read and write,
hue change, text drawing, and blit with the bitmap as destination — fails
with UnsupportedOperation, while width and height succeed with the stored
image dimensions; and a bitmap loaded from an image wider or taller than
the maximum texture size is such a mega bitmap whose width and height are
the true image dimensions. -/
theorem mega_surface_guards (E : GpuExt) (pool pool2 : TexPool) (b : Bitmap)
    (m img : SDLSurface) (maxTexSize : Int)
    (hd : b.disposed = false) (hm : b.p.megaSurface = some m)
    (hbig : img.w > maxTexSize ∨ img.h > maxTexSize) :
    b.width = .ok m.w ∧ b.height = .ok m.h ∧
    (∀ rect color, b.fillRect rect color = .error .UnsupportedOperation) ∧
    (∀ rect c1 c2 v, b.gradientFillRect E rect c1 c2 v = .error .UnsupportedOperation) ∧
    b.clear = .error .UnsupportedOperation ∧
    (∀ rect, b.clearRect rect = .error .UnsupportedOperation) ∧
    (∀ x y, b.getPixel x y = .error .UnsupportedOperation) ∧
    (∀ x y c, b.setPixel x y c = .error .UnsupportedOperation) ∧
    (∀ hue, b.hueChange E pool hue = .error .UnsupportedOperation) ∧
    (∀ rect str align, b.drawText E rect str align = .error .UnsupportedOperation) ∧
    (∀ destRect src srcRect opacity,
      b.stretchBlt E destRect src srcRect opacity = .error .UnsupportedOperation) ∧
    ∃ b2, (bitmapFromFile (.ok img) maxTexSize pool2).result = .ok (pool2, b2) ∧
      b2.width = .ok img.w ∧ b2.height = .ok img.h := by
  have hms : b.p.megaSurface.isSome = true := by rw [hm]; rfl
  refine ⟨?_, ?_, ?_, ?_, ?_, ?_, ?_, ?_, ?_, ?_, ?_, ?_⟩
  · unfold Bitmap.width; simp [hd, hm]
  · unfold Bitmap.height; simp [hd, hm]
  · intro rect color; unfold Bitmap.fillRect; simp [hd, hms]
  · intro rect c1 c2 v; unfold Bitmap.gradientFillRect; simp [hd, hms]
  · unfold Bitmap.clear; simp [hd, hms]
  · intro rect; unfold Bitmap.clearRect; simp [hd, hms]
  · intro x y; unfold Bitmap.getPixel; simp [hd, hms]
  · intro x y c; unfold Bitmap.setPixel; simp [hd, hms]
  · intro hue; unfold Bitmap.hueChange; simp [hd, hms]
  · intro rect str align; unfold Bitmap.drawText; simp [hd, hms]
  · intro destRect src srcRect opacity; unfold Bitmap.stretchBlt; simp [hd, hms]
  · refine ⟨⟨false, ⟨TEXFBO.empty, [], some img, 0⟩⟩, ?_, rfl, rfl⟩
    simp only [bitmapFromFile]
    rw [if_pos hbig]

/-- Witness for C2 at a concrete mega bitmap whose backing image is 5 by 7
with a maximum texture size of 3. -/
theorem mega_surface_guards_witness :
    megaEx.width = .ok 5 ∧ megaEx.clear = .error .UnsupportedOperation ∧
    megaEx.getPixel 0 0 = .error .UnsupportedOperation := by
  have h := mega_surface_guards Eex poolEx poolEx megaEx megaImgEx megaImgEx 3
    rfl rfl (by left; decide)
  exact ⟨h.1, h.2.2.2.2.1, h.2.2.2.2.2.2.1 0 0⟩

/-- Spec-side comparator for the clear claim, following the words of the
spec rather than the source: first flush the pending points, then clear
the entire surface to transparent black and signal modified, with no
discard optimization. -/
def Bitmap.flushThenClearSpec (b : Bitmap) : Bitmap :=
  { b.flush with p := { b.flush.p with
      pointArray := [],
      tex := { b.flush.p.tex with pixels := fun _ _ => Vec4.transparent },
      modifiedCount := b.flush.p.modifiedCount + 1 } }

/-- Replace the point batch of a bitmap (used to state that clear ignores
the batch contents). -/
def Bitmap.withPoints (b : Bitmap) (pts : List (Int × Int × Vec4)) : Bitmap :=
  { b with p := { b.p with pointArray := pts } }

/-- Claim C5: clear discards any pending points outright — its result does
not depend on the point batch at all — and the resulting bitmap is
identical (pixel contents, batch, dimensions and modified count) to the
one produced by flushing the pending points and then clearing the whole
surface to transparent black. -/
theorem clear_discards_points_equals_flush_then_clear (b : Bitmap)
    (hd : b.disposed = false) (hm : b.p.megaSurface = none) :
    b.clear = .ok b.flushThenClearSpec ∧
    ∀ pts, (b.withPoints pts).clear = b.clear := by
  constructor
  · unfold Bitmap.clear Bitmap.flushThenClearSpec
    rw [Bitmap.flush_eq b hd hm]
    simp only [hd, hm, Option.isSome_none, Bool.false_eq_true, if_false, ite_false,
      Bool.false_eq_true]
    simp only [BitmapPrivate.flushPoints_megaSurface, hm, Option.isSome_none]
    refine congrArg Except.ok ?_
    refine Bitmap.ext rfl ?_
    refine BitmapPrivate.ext ?_ rfl (by simp [BitmapPrivate.flushPoints_megaSurface])
      (by simp [BitmapPrivate.flushPoints_modifiedCount])
    refine TEXFBO.ext ?_ ?_ ?_ rfl
    · simp [BitmapPrivate.flushPoints_tex_id]
    · simp [BitmapPrivate.flushPoints_tex_width]
    · simp [BitmapPrivate.flushPoints_tex_height]
  · intro pts
    unfold Bitmap.clear Bitmap.withPoints
    simp [hd, hm]

/-- Witness for C5 at a concrete bitmap with one pending point. -/
theorem clear_discards_points_witness :
    bPendingEx.clear = .ok bPendingEx.flushThenClearSpec ∧
    (bPendingEx.withPoints []).clear = bPendingEx.clear :=
  ⟨(clear_discards_points_equals_flush_then_clear bPendingEx rfl rfl).1,
   (clear_discards_points_equals_flush_then_clear bPendingEx rfl rfl).2 []⟩

/-- Claim C8: the blank constructor fails with InvalidArgument whenever a
requested dimension is non-positive, and for positive dimensions (and a
successful pool allocation) yields a non-disposed GPU bitmap of exactly
the requested size, cleared to transparent black, with an empty point
batch. -/
theorem blank_constructor_spec (pool : TexPool) (w h : Int) :
    ((w ≤ 0 ∨ h ≤ 0) → bitmapBlank pool w h = .error .InvalidArgument) ∧
    (0 < w → 0 < h → pool.canAlloc w h = true →
      ∃ pool1 b, bitmapBlank pool w h = .ok (pool1, b) ∧
        b.width = .ok w ∧ b.height = .ok h ∧
        b.p.tex.pixels = (fun _ _ => Vec4.transparent) ∧
        b.p.pointArray = [] ∧ b.disposed = false) := by
  constructor
  · intro hneg
    unfold bitmapBlank
    rw [if_pos hneg]
  · intro hw hh halloc
    refine ⟨{ pool with nextId := pool.nextId + 1 },
      ⟨false, ⟨⟨pool.nextId, w, h, fun _ _ => Vec4.transparent⟩, [], none, 1⟩⟩,
      ?_, ?_, ?_, rfl, rfl, rfl⟩
    · unfold bitmapBlank TexPool.request Bitmap.clear
      rw [if_neg (by omega)]
      simp [halloc]
    · unfold Bitmap.width
      simp
    · unfold Bitmap.height
      simp

/-- Witness for C8: Blank(0,5) and Blank(-1,-1) fail with InvalidArgument,
Blank(3,2) succeeds with a 3 by 2 transparent-black bitmap. -/
theorem blank_constructor_witness :
    bitmapBlank poolEx 0 5 = .error .InvalidArgument ∧
    bitmapBlank poolEx (-1) (-1) = .error .InvalidArgument ∧
    ∃ pool1 b, bitmapBlank poolEx 3 2 = .ok (pool1, b) ∧
      b.width = .ok 3 ∧ b.height = .ok 2 ∧
      b.p.tex.pixels = (fun _ _ => Vec4.transparent) ∧
      b.p.pointArray = [] ∧ b.disposed = false :=
  ⟨(blank_constructor_spec poolEx 0 5).1 (Or.inl (by decide)),
   (blank_constructor_spec poolEx (-1) (-1)).1 (Or.inl (by decide)),
   (blank_constructor_spec poolEx 3 2).2 (by decide) (by decide) rfl⟩

/-- Claim C9: the file constructor fails with LoadError carrying the
decoder error text when decoding fails (no CPU buffer was allocated), and
with ResourceError when the texture-pool allocation fails, in which case
the decoded CPU pixel buffer has been freed before the error propagates. -/
theorem fromFile_error_paths (decoded : Except String SDLSurface) (maxTexSize : Int)
    (pool : TexPool) :
    (∀ msg, decoded = .error msg →
      (bitmapFromFile decoded maxTexSize pool).result = .error (.LoadError msg) ∧
      (bitmapFromFile decoded maxTexSize pool).bufferAllocated = false) ∧
    (∀ img, decoded = .ok img → img.w ≤ maxTexSize → img.h ≤ maxTexSize →
      pool.canAlloc img.w img.h = false →
      (bitmapFromFile decoded maxTexSize pool).result = .error .ResourceError ∧
      (bitmapFromFile decoded maxTexSize pool).bufferAllocated = true ∧
      (bitmapFromFile decoded maxTexSize pool).bufferFreed = true) := by
  constructor
  · intro msg hmsg
    subst hmsg
    exact ⟨rfl, rfl⟩
  · intro img himg hw hh halloc
    subst himg
    simp only [bitmapFromFile]
    rw [if_neg (by omega)]
    unfold TexPool.request
    rw [if_neg (by simp [halloc])]
    exact ⟨rfl, rfl, rfl⟩

/-- Witness for C9: a failed decode surfaces the decoder text, and a
failed pool allocation on a 3 by 3 image yields ResourceError with the
CPU buffer freed. -/
theorem fromFile_error_paths_witness :
    (bitmapFromFile (.error "bad png") 10 poolEx).result
      = .error (.LoadError "bad png") ∧
    (bitmapFromFile (.ok ⟨3, 3, gridEx⟩) 10 poolFailEx).result = .error .ResourceError ∧
    (bitmapFromFile (.ok ⟨3, 3, gridEx⟩) 10 poolFailEx).bufferFreed = true :=
  ⟨((fromFile_error_paths (.error "bad png") 10 poolEx).1 "bad png" rfl).1,
   ((fromFile_error_paths (.ok ⟨3, 3, gridEx⟩) 10 poolFailEx).2 ⟨3, 3, gridEx⟩ rfl
      (by decide) (by decide) rfl).1,
   ((fromFile_error_paths (.ok ⟨3, 3, gridEx⟩) 10 poolFailEx).2 ⟨3, 3, gridEx⟩ rfl
      (by decide) (by decide) rfl).2.2⟩

/-- Claim C4, first half as a single pipeline: setPixel(x,y,c) immediately
followed by getPixel(x,y) returns c, for any in-bounds coordinate on a
live GPU bitmap (the read triggers the implicit flush). -/
theorem setPixel_then_getPixel (b : Bitmap) (x y : Int) (c : Vec4)
    (hd : b.disposed = false) (hm : b.p.megaSurface = none)
    (hx0 : 0 ≤ x) (hx : x < b.p.tex.width) (hy0 : 0 ≤ y) (hy : y < b.p.tex.height) :
    ((b.setPixel x y c).bind (fun b1 => b1.getPixel x y)).map Prod.fst = .ok c ∧
    (∀ v b2, b.getPixel x y = .ok (v, b2) →
      b2.p.pointArray = [] ∧
      b2.p.tex.pixels
        = b.p.pointArray.foldl (applyPoint b.p.tex.width b.p.tex.height) b.p.tex.pixels ∧
      v = b2.p.tex.pixels x y) := by
  have hnb : ¬(x < 0 ∨ y < 0 ∨ x ≥ b.p.tex.width ∨ y ≥ b.p.tex.height) := by omega
  have h1 : ¬(x < 0) := by omega
  have h2 : ¬(y < 0) := by omega
  have h3 : ¬(b.p.tex.width ≤ x) := by omega
  have h4 : ¬(b.p.tex.height ≤ y) := by omega
  constructor
  · unfold Bitmap.setPixel Bitmap.getPixel Bitmap.flush BitmapPrivate.flushPoints
    simp [Except.bind, Except.map, hd, hm, h1, h2, h3, h4, List.foldl_append, applyPoint,
      hx0, hx, hy0, hy]
  · intro v b2 hget
    unfold Bitmap.getPixel at hget
    rw [if_neg (by simp [hd]), if_neg (by simp [hm]), if_neg hnb] at hget
    simp only [Except.ok.injEq, Prod.mk.injEq] at hget
    obtain ⟨hv, hb2⟩ := hget
    subst hb2
    rw [Bitmap.flush_eq b hd hm]
    refine ⟨BitmapPrivate.flushPoints_pointArray _, ?_, ?_⟩
    · exact BitmapPrivate.flushPoints_tex_pixels _
    · rw [← hv, Bitmap.flush_eq b hd hm]

/-- Witness for C4 at pixel (1,0) of a concrete 2 by 2 bitmap. -/
theorem setPixel_then_getPixel_witness :
    ((bEx.setPixel 1 0 redEx).bind (fun b1 => b1.getPixel 1 0)).map Prod.fst
      = .ok redEx :=
  (setPixel_then_getPixel bEx 1 0 redEx rfl rfl (by decide) (by decide) (by decide)
    (by decide)).1

/-- Claim C6: hueChange(degrees) is a no-op (state and pool both returned
unchanged) exactly when degrees mod 360 is 0; otherwise it allocates a new
texture of the same size from the pool (its id is the fresh pool id and the
pool counter advances), normalizes degrees into [0,359], draws the old
(flushed) texture through the hue shader with radian parameter
hueAdjCoeff * pi = -(2 pi / 360) * normalized degrees, and releases the
old texture id back to the pool. -/
theorem hueChange_spec (E : GpuExt) (pool : TexPool) (b : Bitmap) (hue : Int)
    (hd : b.disposed = false) (hm : b.p.megaSurface = none)
    (halloc : pool.canAlloc b.p.tex.width b.p.tex.height = true) :
    (hue.tmod 360 = 0 → b.hueChange E pool hue = .ok (pool, b)) ∧
    (hue.tmod 360 ≠ 0 →
      ∃ pool2 b2, b.hueChange E pool hue = .ok (pool2, b2) ∧
        (pool2, b2) ≠ (pool, b) ∧
        b2.p.tex.width = b.p.tex.width ∧ b2.p.tex.height = b.p.tex.height ∧
        b2.p.tex.id = pool.nextId ∧
        pool2.nextId = pool.nextId + 1 ∧
        pool2.released = b.p.tex.id :: pool.released ∧
        0 ≤ wrapRange hue 0 359 ∧ wrapRange hue 0 359 ≤ 359 ∧
        b2.p.tex.pixels = E.huePass (hueAdjCoeff hue) b.flush.p.tex.pixels ∧
        hueAdjCoeff hue = -((2 : ℚ) / 360) * ((wrapRange hue 0 359 : Int) : ℚ)) := by
  constructor
  · intro h0
    unfold Bitmap.hueChange
    simp [hd, hm, h0]
  · intro h0
    unfold Bitmap.hueChange TexPool.request TexPool.release
    rw [Bitmap.flush_eq b hd hm]
    simp only [hd, hm, Option.isSome_none, Bool.false_eq_true, if_false,
      BitmapPrivate.flushPoints_tex_width, BitmapPrivate.flushPoints_tex_height, halloc,
      if_true, h0, if_neg h0, ite_true]
    refine ⟨_, _, rfl, ?_, rfl, rfl, rfl, rfl, ?_, ?_, ?_, rfl, rfl⟩
    · intro hcon
      have : pool.nextId + 1 = pool.nextId :=
        congrArg TexPool.nextId (congrArg Prod.fst hcon)
      omega
    · show b.p.flushPoints.tex.id :: pool.released = b.p.tex.id :: pool.released
      rw [BitmapPrivate.flushPoints_tex_id]
    · unfold wrapRange
      have h := Int.emod_nonneg (hue - 0) (by norm_num : (359 - 0 + 1 : Int) ≠ 0)
      linarith
    · unfold wrapRange
      have h := Int.emod_lt_of_pos (hue - 0) (by norm_num : (0 : Int) < 359 - 0 + 1)
      linarith

/-- Witness for C6: hue 0 and hue 360 are no-ops on a concrete bitmap, and
hue 180 is not a no-op. -/
theorem hueChange_witness :
    bEx.hueChange Eex poolEx 0 = .ok (poolEx, bEx) ∧
    bEx.hueChange Eex poolEx 360 = .ok (poolEx, bEx) ∧
    ∃ pool2 b2, bEx.hueChange Eex poolEx 180 = .ok (pool2, b2) ∧
      (pool2, b2) ≠ (poolEx, bEx) := by
  refine ⟨(hueChange_spec Eex poolEx bEx 0 rfl rfl rfl).1 (by decide),
          (hueChange_spec Eex poolEx bEx 360 rfl rfl rfl).1 (by decide), ?_⟩
  obtain ⟨pool2, b2, h1, h2, -⟩ :=
    (hueChange_spec Eex poolEx bEx 180 rfl rfl rfl).2 (by decide)
  exact ⟨pool2, b2, h1, h2⟩

/-- Claim C7: for a rendered text surface of positive width txtW,
horizontal placement is rect.x for Left alignment, centered within rect.w
(C truncating division) and clamped to not start left of rect.x for
Center, and right-aligned so the drawn quad ends exactly at rect.x +
rect.w for Right; vertical placement centers within rect.h; the squeeze
factor is rect.w / txtW capped at 1, hence never greater than 1 (text is
shrunk, never stretched); and drawText on the empty string is a complete
no-op. -/
theorem drawText_placement_spec (E : GpuExt) (b : Bitmap) (rect : IntRect)
    (align : Int) (txtW txtH : Int) (hW : 0 < txtW)
    (hd : b.disposed = false) (hm : b.p.megaSurface = none) :
    (drawTextPlacement rect Bitmap.alignLeft txtW txtH).alignX = rect.x ∧
    (drawTextPlacement rect Bitmap.alignCenter txtW txtH).alignX
      = max rect.x (rect.x + (rect.w - txtW).tdiv 2) ∧
    ((drawTextPlacement rect Bitmap.alignRight txtW txtH).alignX : ℚ)
      + (drawTextPlacement rect Bitmap.alignRight txtW txtH).posW
      = ((rect.x : ℚ) + (rect.w : ℚ)) ∧
    (drawTextPlacement rect align txtW txtH).alignY
      = rect.y + (rect.h - txtH).tdiv 2 ∧
    (drawTextPlacement rect align txtW txtH).squeeze
      = min 1 ((rect.w : ℚ) / (txtW : ℚ)) ∧
    (drawTextPlacement rect align txtW txtH).squeeze ≤ 1 ∧
    (∀ al, b.drawText E rect "" al = .ok b) := by
  have hT : (0 : ℚ) < (txtW : ℚ) := by exact_mod_cast hW
  have hTne : ((txtW : Int) : ℚ) ≠ 0 := ne_of_gt hT
  refine ⟨?_, ?_, ?_, ?_, ?_, ?_, ?_⟩
  · unfold drawTextPlacement Bitmap.alignLeft Bitmap.alignCenter Bitmap.alignRight
    norm_num
  · unfold drawTextPlacement Bitmap.alignCenter Bitmap.alignRight
    norm_num
    split_ifs <;> omega
  · unfold drawTextPlacement Bitmap.alignCenter Bitmap.alignRight
    norm_num
    rcases lt_trichotomy rect.w txtW with hlt | heq | hgt
    · -- text wider than the rectangle: the start is clamped to rect.x and
      -- the squeezed quad is exactly rect.w wide
      have hc : rect.x + rect.w - txtW < rect.x := by omega
      have hsq : ¬((rect.w : ℚ) / (txtW : ℚ) > 1) := by
        rw [gt_iff_lt, not_lt, div_le_one hT]
        exact_mod_cast le_of_lt hlt
      rw [if_pos hc, if_neg hsq, mul_comm ((txtW : ℚ)) _, div_mul_cancel₀ _ hTne]
    · -- text exactly as wide as the rectangle
      have hc : ¬(rect.x + rect.w - txtW < rect.x) := by omega
      have hsq : ¬((rect.w : ℚ) / (txtW : ℚ) > 1) := by
        rw [gt_iff_lt, not_lt, div_le_one hT]
        exact_mod_cast le_of_eq heq
      rw [if_neg hc, if_neg hsq, heq, div_self hTne, mul_one]
      ring
    · -- text narrower than the rectangle: no clamp, squeeze capped at 1
      have hc : ¬(rect.x + rect.w - txtW < rect.x) := by omega
      have hsq : (rect.w : ℚ) / (txtW : ℚ) > 1 := by
        rw [gt_iff_lt, lt_div_iff₀ hT]
        rw [one_mul]
        exact_mod_cast hgt
      rw [if_neg hc, if_pos hsq]
      ring
  · unfold drawTextPlacement
    split_ifs <;> rfl
  · unfold drawTextPlacement
    norm_num
    split_ifs with hsq
    · rw [eq_comm, min_eq_left_iff]
      exact le_of_lt hsq
    · rw [eq_comm, min_eq_right_iff]
      exact not_lt.mp (by simpa using hsq)
  · unfold drawTextPlacement
    norm_num
    split_ifs with hsq
    · exact le_refl 1
    · exact not_lt.mp (by simpa using hsq)
  · intro al
    unfold Bitmap.drawText
    simp [hd, hm]

/-- Witness for C7 on a 10 by 5 rectangle with a 4 by 3 text surface. -/
theorem drawText_placement_witness :
    (drawTextPlacement ⟨0, 0, 10, 5⟩ Bitmap.alignLeft 4 3).alignX = (0 : Int) ∧
    ((drawTextPlacement ⟨0, 0, 10, 5⟩ Bitmap.alignRight 4 3).alignX : ℚ)
      + (drawTextPlacement ⟨0, 0, 10, 5⟩ Bitmap.alignRight 4 3).posW
      = (((0 : Int) : ℚ) + ((10 : Int) : ℚ)) ∧
    bEx.drawText Eex ⟨0, 0, 10, 5⟩ "" 0 = .ok bEx := by
  have h := drawText_placement_spec Eex bEx ⟨0, 0, 10, 5⟩ 0 4 3 (by decide) rfl rfl
  exact ⟨h.1, h.2.2.1, h.2.2.2.2.2.2 0⟩

/-- Point batch is empty after a private fillRect (it begins by flushing). -/
theorem BitmapPrivate.fillRect_pointArray (p : BitmapPrivate) (rect : IntRect)
    (color : Vec4) : (p.fillRect rect color).pointArray = [] := by
  unfold BitmapPrivate.fillRect
  exact BitmapPrivate.flushPoints_pointArray p

/-- Point batch is empty after flushing a live GPU bitmap. -/
theorem Bitmap.flush_p_pointArray (b : Bitmap) (hd : b.disposed = false)
    (hm : b.p.megaSurface = none) : b.flush.p.pointArray = [] := by
  rw [Bitmap.flush_eq b hd hm]
  exact BitmapPrivate.flushPoints_pointArray b.p

/-- Which public operations reach their GPU drawing phase on a given
bitmap: width, height and textSize never touch the framebuffer, setPixel
only buffers, and stretchBlt, hueChange, drawText and getPixel return
early, before flushing, on zero clamped opacity, degrees divisible by 360,
the empty string, and an out-of-bounds coordinate respectively. -/
def reachesGpuPhase (op : BOp) (b : Bitmap) : Prop :=
  match op with
  | .widthOp => False
  | .heightOp => False
  | .textSizeOp _ => False
  | .setPixelOp _ _ _ => False
  | .stretchBltOp _ _ _ opacity => clamp opacity 0 255 ≠ 0
  | .hueChangeOp hue => hue.tmod 360 ≠ 0
  | .drawTextOp _ str _ => str ≠ ""
  | .getPixelOp x y => 0 ≤ x ∧ x < b.p.tex.width ∧ 0 ≤ y ∧ y < b.p.tex.height
  | _ => True

/-- Amended claim C1: on a live GPU bitmap, after any public operation
that reaches its GPU drawing phase returns successfully — that is, any
operation other than setPixel, excluding the pure queries width, height
and textSize and the early-return cases (stretchBlt with clamped opacity
0, hueChange with degrees divisible by 360, drawText with the empty
string, getPixel out of bounds) — the pending point batch is empty. -/
theorem pending_points_empty_after_gpu_ops (E : GpuExt) (pool : TexPool) (op : BOp)
    (b b2 : Bitmap) (hd : b.disposed = false) (hm : b.p.megaSurface = none)
    (hphase : reachesGpuPhase op b) (hrun : runOp E pool op b = .ok b2) :
    b2.p.pointArray = [] := by
  have hms : b.p.megaSurface.isSome = false := by rw [hm]; rfl
  have hdn : ¬(b.disposed = true) := by simp [hd]
  have hmn : ¬(b.p.megaSurface.isSome = true) := by simp [hms]
  cases op with
  | widthOp => exact hphase.elim
  | heightOp => exact hphase.elim
  | textSizeOp str => exact hphase.elim
  | setPixelOp x y c => exact hphase.elim
  | stretchBltOp destRect src srcRect opacity =>
    simp only [runOp, Bitmap.stretchBlt] at hrun
    rw [if_neg hdn, if_neg hmn, if_neg hphase] at hrun
    cases hsw : src.width with
    | error e => rw [hsw] at hrun; simp at hrun
    | ok w =>
      cases hsh : src.height with
      | error e => rw [hsw, hsh] at hrun; simp at hrun
      | ok h =>
        rw [hsw, hsh] at hrun
        simp only [Except.ok.injEq] at hrun
        subst hrun
        exact Bitmap.flush_p_pointArray b hd hm
  | fillRectOp rect color =>
    simp only [runOp, Bitmap.fillRect] at hrun
    rw [if_neg hdn, if_neg hmn] at hrun
    simp only [Except.ok.injEq] at hrun
    subst hrun
    exact BitmapPrivate.fillRect_pointArray b.p rect color
  | gradientFillRectOp rect c1 c2 v =>
    simp only [runOp, Bitmap.gradientFillRect] at hrun
    rw [if_neg hdn, if_neg hmn] at hrun
    simp only [Except.ok.injEq] at hrun
    subst hrun
    exact Bitmap.flush_p_pointArray b hd hm
  | clearRectOp rect =>
    simp only [runOp, Bitmap.clearRect] at hrun
    rw [if_neg hdn, if_neg hmn] at hrun
    simp only [Except.ok.injEq] at hrun
    subst hrun
    exact BitmapPrivate.fillRect_pointArray b.p rect Vec4.transparent
  | clearOp =>
    simp only [runOp, Bitmap.clear] at hrun
    rw [if_neg hdn, if_neg hmn] at hrun
    simp only [Except.ok.injEq] at hrun
    subst hrun
    rfl
  | getPixelOp x y =>
    obtain ⟨h1, h2, h3, h4⟩ := hphase
    simp only [runOp, Bitmap.getPixel] at hrun
    rw [if_neg hdn, if_neg hmn, if_neg (by omega)] at hrun
    simp only [Except.map, Except.ok.injEq] at hrun
    subst hrun
    exact Bitmap.flush_p_pointArray b hd hm
  | hueChangeOp hue =>
    simp only [runOp, Bitmap.hueChange] at hrun
    rw [if_neg hdn, if_neg hmn, if_neg hphase] at hrun
    cases hreq : TexPool.request pool b.flush.p.tex.width b.flush.p.tex.height with
    | error e => rw [hreq] at hrun; simp [Except.map] at hrun
    | ok pr =>
      obtain ⟨ntex, pl⟩ := pr
      rw [hreq] at hrun
      simp only [Except.map, Except.ok.injEq] at hrun
      subst hrun
      exact Bitmap.flush_p_pointArray b hd hm
  | drawTextOp rect str align =>
    simp only [runOp, Bitmap.drawText] at hrun
    rw [if_neg hdn, if_neg hmn, if_neg hphase] at hrun
    simp only [Except.ok.injEq] at hrun
    subst hrun
    exact Bitmap.flush_p_pointArray b hd hm
  | flushOp =>
    simp only [runOp, Except.ok.injEq] at hrun
    subst hrun
    exact Bitmap.flush_p_pointArray b hd hm

/-- Counterexample to claim C1 as stated: stretchBlt with opacity 0 (an
operation other than setPixel, explicitly included by the claim) returns
early without flushing, leaving the pending point of this bitmap in the
batch. -/
theorem pending_points_cex :
    runOp Eex poolEx (.stretchBltOp rectEx bEx rectEx 0) bPendingEx = .ok bPendingEx ∧
    bPendingEx.p.pointArray ≠ [] := by
  exact ⟨rfl, by decide⟩

/-- The state clear leaves a concrete bitmap with one pending point in
(used to discharge the run hypothesis of the amended claim C1 at a
concrete input). -/
def bClearedEx : Bitmap := ⟨false, ⟨⟨0, 2, 2, fun _ _ => Vec4.transparent⟩, [], none, 2⟩⟩

/-- Witness for the amended claim C1: running clear on a concrete bitmap
with one pending point empties the batch. -/
theorem pending_points_witness :
    bPendingEx.disposed = false ∧ reachesGpuPhase .clearOp bPendingEx ∧
    bClearedEx.p.pointArray = [] :=
  ⟨rfl, trivial,
   pending_points_empty_after_gpu_ops Eex poolEx .clearOp bPendingEx bClearedEx
     rfl rfl trivial rfl⟩

/-- A concrete disposed bitmap. -/
def disposedEx : Bitmap := ⟨true, ⟨texEx, [], none, 0⟩⟩

/-- Amended claim C10: flush called on a disposed bitmap or on a mega
(CpuSurface) bitmap returns silently with the bitmap unchanged and raises
no error; every other public operation fails with DisposedError on a
disposed bitmap; and on a non-disposed mega bitmap every other operation
fails with UnsupportedOperation except width and height, which succeed. -/
theorem flush_silent_on_dead_surfaces (E : GpuExt) (pool : TexPool) (b : Bitmap) :
    (b.disposed = true → runOp E pool .flushOp b = .ok b) ∧
    (b.p.megaSurface.isSome = true → runOp E pool .flushOp b = .ok b) ∧
    (∀ op, op ≠ .flushOp → b.disposed = true →
      runOp E pool op b = .error .DisposedError) ∧
    (∀ op, op ≠ .flushOp → op ≠ .widthOp → op ≠ .heightOp →
      b.disposed = false → b.p.megaSurface.isSome = true →
      runOp E pool op b = .error .UnsupportedOperation) ∧
    (b.disposed = false → b.p.megaSurface.isSome = true →
      runOp E pool .widthOp b = .ok b ∧ runOp E pool .heightOp b = .ok b) := by
  refine ⟨?_, ?_, ?_, ?_, ?_⟩
  · intro hdisp
    simp [runOp, Bitmap.flush, hdisp]
  · intro hmega
    by_cases hdisp : b.disposed = true
    · simp [runOp, Bitmap.flush, hdisp]
    · simp [runOp, Bitmap.flush, hdisp, hmega]
  · intro op hne hdisp
    cases op with
    | flushOp => exact absurd rfl hne
    | widthOp => simp [runOp, Bitmap.width, hdisp, Except.map]
    | heightOp => simp [runOp, Bitmap.height, hdisp, Except.map]
    | stretchBltOp destRect src srcRect opacity =>
      simp [runOp, Bitmap.stretchBlt, hdisp]
    | fillRectOp rect color => simp [runOp, Bitmap.fillRect, hdisp]
    | gradientFillRectOp rect c1 c2 v => simp [runOp, Bitmap.gradientFillRect, hdisp]
    | clearRectOp rect => simp [runOp, Bitmap.clearRect, hdisp]
    | clearOp => simp [runOp, Bitmap.clear, hdisp]
    | getPixelOp x y => simp [runOp, Bitmap.getPixel, hdisp, Except.map]
    | setPixelOp x y c => simp [runOp, Bitmap.setPixel, hdisp]
    | hueChangeOp hue => simp [runOp, Bitmap.hueChange, hdisp, Except.map]
    | drawTextOp rect str align => simp [runOp, Bitmap.drawText, hdisp]
    | textSizeOp str => simp [runOp, Bitmap.textSize, hdisp, Except.map]
  · intro op hne hnw hnh hd hmega
    cases op with
    | flushOp => exact absurd rfl hne
    | widthOp => exact absurd rfl hnw
    | heightOp => exact absurd rfl hnh
    | stretchBltOp destRect src srcRect opacity =>
      simp [runOp, Bitmap.stretchBlt, hd, hmega]
    | fillRectOp rect color => simp [runOp, Bitmap.fillRect, hd, hmega]
    | gradientFillRectOp rect c1 c2 v => simp [runOp, Bitmap.gradientFillRect, hd, hmega]
    | clearRectOp rect => simp [runOp, Bitmap.clearRect, hd, hmega]
    | clearOp => simp [runOp, Bitmap.clear, hd, hmega]
    | getPixelOp x y => simp [runOp, Bitmap.getPixel, hd, hmega, Except.map]
    | setPixelOp x y c => simp [runOp, Bitmap.setPixel, hd, hmega]
    | hueChangeOp hue => simp [runOp, Bitmap.hueChange, hd, hmega, Except.map]
    | drawTextOp rect str align => simp [runOp, Bitmap.drawText, hd, hmega]
    | textSizeOp str => simp [runOp, Bitmap.textSize, hd, hmega, Except.map]
  · intro hd hmega
    obtain ⟨s, hs⟩ := Option.isSome_iff_exists.mp hmega
    constructor
    · simp [runOp, Bitmap.width, hd, hs, Except.map]
    · simp [runOp, Bitmap.height, hd, hs, Except.map]

/-- Counterexample to claim C10 as stated: width is a public operation
other than flush, yet on a non-disposed mega bitmap it succeeds instead of
failing with UnsupportedOperation (and it likewise does not fail with
DisposedError). -/
theorem flush_silent_cex :
    runOp Eex poolEx .widthOp megaEx = .ok megaEx ∧
    BOp.widthOp ≠ BOp.flushOp :=
  ⟨rfl, fun h => BOp.noConfusion h⟩

/-- Witness for the amended claim C10 at concrete disposed and mega
bitmaps. -/
theorem flush_silent_witness :
    runOp Eex poolEx .flushOp disposedEx = .ok disposedEx ∧
    runOp Eex poolEx .clearOp disposedEx = .error .DisposedError ∧
    runOp Eex poolEx .clearOp megaEx = .error .UnsupportedOperation ∧
    runOp Eex poolEx .widthOp megaEx = .ok megaEx :=
  ⟨(flush_silent_on_dead_surfaces Eex poolEx disposedEx).1 rfl,
   (flush_silent_on_dead_surfaces Eex poolEx disposedEx).2.2.1 .clearOp
     (fun h => BOp.noConfusion h) rfl,
   (flush_silent_on_dead_surfaces Eex poolEx megaEx).2.2.2.1 .clearOp
     (fun h => BOp.noConfusion h) (fun h => BOp.noConfusion h)
     (fun h => BOp.noConfusion h) rfl rfl,
   ((flush_silent_on_dead_surfaces Eex poolEx megaEx).2.2.2.2 rfl rfl).1⟩
